import Mathlib

/-!
Shallow embedding of the conversion core of the Unit Converter website
(source file src/unit-converter.js) and proofs about it.

Modelling conventions:
* JavaScript numbers are modelled by the type JsVal below: a finite number
  is a rational (exact arithmetic stands in for IEEE doubles, as the
  specification speaks of real numbers), and the special values NaN,
  Infinity, -Infinity and undefined are explicit constructors.  The JS
  arithmetic operators are given their ECMAScript semantics on these
  special values; the negative zero of IEEE is collapsed into 0, which is
  observation-equivalent for every function modelled here (JS compares
  -0 == 0, prints it as 0 after toFixed, and treats it as falsy).
* Property lookup on the factor objects returns undefined when the key is
  missing, which is how a JS object behaves.
* The composition parseFloat(x.toFixed(d)) used by every converter is
  modelled by jsFix d: on a finite value it rounds to d decimal places
  with ties away from zero (the rounding of Number.prototype.toFixed),
  and it fixes NaN and the infinities.  For doubles of magnitude at least
  1e21 toFixed falls back to ToString, but every such double is an
  integer, on which rounding to 10 decimal places is the identity, so the
  plain rounding model is extensionally faithful.
-/

inductive JsVal where
  | num (q : ℚ)
  | nan
  | posInf
  | negInf
  | undef
deriving DecidableEq, Repr

namespace JsVal

/-- ToNumber coercion as it happens inside the arithmetic operators:
undefined converts to NaN, everything else is already a number. -/
def toNum : JsVal → JsVal
  | undef => nan
  | v => v

/-- Truthiness of a JS number-like value: 0, NaN and undefined are falsy. -/
def falsy : JsVal → Bool
  | num q => decide (q = 0)
  | nan => true
  | undef => true
  | posInf => false
  | negInf => false

/-- The global isNaN predicate (applied after ToNumber). -/
def isNaN : JsVal → Bool
  | nan => true
  | undef => true
  | _ => false

/-- JS multiplication on number-like values. -/
def mul (a b : JsVal) : JsVal :=
  match a.toNum, b.toNum with
  | num x, num y => num (x * y)
  | num x, posInf => if x = 0 then nan else if 0 < x then posInf else negInf
  | num x, negInf => if x = 0 then nan else if 0 < x then negInf else posInf
  | posInf, num y => if y = 0 then nan else if 0 < y then posInf else negInf
  | negInf, num y => if y = 0 then nan else if 0 < y then negInf else posInf
  | posInf, posInf => posInf
  | posInf, negInf => negInf
  | negInf, posInf => negInf
  | negInf, negInf => posInf
  | _, _ => nan

/-- JS division on number-like values. -/
def div (a b : JsVal) : JsVal :=
  match a.toNum, b.toNum with
  | num x, num y =>
      if y = 0 then (if x = 0 then nan else if 0 < x then posInf else negInf)
      else num (x / y)
  | num _, posInf => num 0
  | num _, negInf => num 0
  | posInf, num y => if 0 ≤ y then posInf else negInf
  | negInf, num y => if 0 ≤ y then negInf else posInf
  | _, _ => nan

/-- JS addition on number-like values. -/
def add (a b : JsVal) : JsVal :=
  match a.toNum, b.toNum with
  | num x, num y => num (x + y)
  | num _, posInf => posInf
  | posInf, num _ => posInf
  | num _, negInf => negInf
  | negInf, num _ => negInf
  | posInf, posInf => posInf
  | negInf, negInf => negInf
  | _, _ => nan

/-- JS subtraction on number-like values. -/
def sub (a b : JsVal) : JsVal :=
  match a.toNum, b.toNum with
  | num x, num y => num (x - y)
  | num _, posInf => negInf
  | posInf, num _ => posInf
  | num _, negInf => posInf
  | negInf, num _ => negInf
  | posInf, posInf => nan
  | negInf, negInf => nan
  | posInf, negInf => posInf
  | negInf, posInf => negInf
  | _, _ => nan

end JsVal

/-- Rounding of an exact rational to d decimal places with ties away from
zero, the rounding performed by Number.prototype.toFixed. -/
def jsRoundTo (d : ℕ) (q : ℚ) : ℚ :=
  if q < 0 then -(((round (-q * 10 ^ d) : ℤ) : ℚ) / 10 ^ d)
  else ((round (q * 10 ^ d) : ℤ) : ℚ) / 10 ^ d

/-- Model of parseFloat(x.toFixed(d)): round a finite value to d decimal
places; NaN and the infinities print and re-parse to themselves.  The
undefined case is unreachable (an arithmetic result is never undefined). -/
def jsFix (d : ℕ) : JsVal → JsVal
  | JsVal.num q => JsVal.num (jsRoundTo d q)
  | JsVal.nan => JsVal.nan
  | JsVal.posInf => JsVal.posInf
  | JsVal.negInf => JsVal.negInf
  | JsVal.undef => JsVal.nan

/-- Property read on a factor object: a missing key yields undefined. -/
def optFactor : Option ℚ → JsVal
  | some f => JsVal.num f
  | none => JsVal.undef

/-- The length table of conversionFactors (base unit: meter). -/
def conversionFactors.length (u : String) : Option ℚ :=
  if u = "mm" then some 0.001
  else if u = "cm" then some 0.01
  else if u = "m" then some 1
  else if u = "km" then some 1000
  else if u = "inch" then some 0.0254
  else if u = "foot" then some 0.3048
  else if u = "yard" then some 0.9144
  else if u = "mile" then some 1609.344
  else none

/-- The weight table of conversionFactors (base unit: kilogram). -/
def conversionFactors.weight (u : String) : Option ℚ :=
  if u = "mg" then some 0.000001
  else if u = "g" then some 0.001
  else if u = "kg" then some 1
  else if u = "oz" then some 0.0283495
  else if u = "lb" then some 0.453592
  else if u = "ton" then some 1000
  else none

/-- The volume table of conversionFactors (base unit: liter). -/
def conversionFactors.volume (u : String) : Option ℚ :=
  if u = "ml" then some 0.001
  else if u = "liter" then some 1
  else if u = "gallon" then some 3.78541
  else if u = "quart" then some 0.946353
  else if u = "pint" then some 0.473176
  else if u = "cup" then some 0.236588
  else if u = "fl_oz" then some 0.0295735
  else if u = "tbsp" then some 0.0147868
  else if u = "tsp" then some 0.00492892
  else none

/-- The speed table of conversionFactors (base unit: meter per second). -/
def conversionFactors.speed (u : String) : Option ℚ :=
  if u = "ms" then some 1
  else if u = "kmh" then some 3.6
  else if u = "mph" then some 2.23694
  else if u = "knots" then some 1.94384
  else none

/-- The area table of conversionFactors (base unit: square meter). -/
def conversionFactors.area (u : String) : Option ℚ :=
  if u = "mm2" then some 0.000001
  else if u = "cm2" then some 0.0001
  else if u = "m2" then some 1
  else if u = "km2" then some 1000000
  else if u = "acre" then some 4046.86
  else if u = "hectare" then some 10000
  else none

/-- The pressure table of conversionFactors (base unit: pascal). -/
def conversionFactors.pressure (u : String) : Option ℚ :=
  if u = "pa" then some 1
  else if u = "bar" then some 100000
  else if u = "atm" then some 101325
  else if u = "psi" then some 6894.76
  else none

/-- Convert length value (function convertLength of the source). -/
def convertLength (value : JsVal) (fromUnit toUnit : String) : JsVal :=
  if value.falsy || value.isNaN then JsVal.num 0
  else
    let valueInMeters := value.mul (optFactor (conversionFactors.length fromUnit))
    let result := valueInMeters.div (optFactor (conversionFactors.length toUnit))
    jsFix 10 result

/-- Convert weight value (function convertWeight of the source). -/
def convertWeight (value : JsVal) (fromUnit toUnit : String) : JsVal :=
  if value.falsy || value.isNaN then JsVal.num 0
  else
    let valueInKg := value.mul (optFactor (conversionFactors.weight fromUnit))
    let result := valueInKg.div (optFactor (conversionFactors.weight toUnit))
    jsFix 10 result

/-- Convert volume value (function convertVolume of the source). -/
def convertVolume (value : JsVal) (fromUnit toUnit : String) : JsVal :=
  if value.falsy || value.isNaN then JsVal.num 0
  else
    let valueInLiters := value.mul (optFactor (conversionFactors.volume fromUnit))
    let result := valueInLiters.div (optFactor (conversionFactors.volume toUnit))
    jsFix 10 result

/-- Convert speed value (function convertSpeed of the source); note the
inverted use of the table: divide by the source factor, multiply by the
target factor. -/
def convertSpeed (value : JsVal) (fromUnit toUnit : String) : JsVal :=
  if value.falsy || value.isNaN then JsVal.num 0
  else
    let valueInMs := value.div (optFactor (conversionFactors.speed fromUnit))
    let result := valueInMs.mul (optFactor (conversionFactors.speed toUnit))
    jsFix 10 result

/-- Convert area value (function convertArea of the source). -/
def convertArea (value : JsVal) (fromUnit toUnit : String) : JsVal :=
  if value.falsy || value.isNaN then JsVal.num 0
  else
    let valueInM2 := value.mul (optFactor (conversionFactors.area fromUnit))
    let result := valueInM2.div (optFactor (conversionFactors.area toUnit))
    jsFix 10 result

/-- Convert pressure value (function convertPressure of the source). -/
def convertPressure (value : JsVal) (fromUnit toUnit : String) : JsVal :=
  if value.falsy || value.isNaN then JsVal.num 0
  else
    let valueInPa := value.mul (optFactor (conversionFactors.pressure fromUnit))
    let result := valueInPa.div (optFactor (conversionFactors.pressure toUnit))
    jsFix 10 result

/-- Convert temperature value (function convertTemperature of the source);
the switch statements on the unit strings are rendered as chains of
string comparisons with default fall-through to the Celsius identity. -/
def convertTemperature (value : JsVal) (fromUnit toUnit : String) : JsVal :=
  if value.isNaN then JsVal.num 0
  else
    let celsius :=
      if fromUnit = "celsius" then value
      else if fromUnit = "fahrenheit" then (value.sub (JsVal.num 32)).mul (JsVal.num (5 / 9))
      else if fromUnit = "kelvin" then value.sub (JsVal.num 273.15)
      else value
    let result :=
      if toUnit = "celsius" then celsius
      else if toUnit = "fahrenheit" then (celsius.mul (JsVal.num (9 / 5))).add (JsVal.num 32)
      else if toUnit = "kelvin" then celsius.add (JsVal.num 273.15)
      else celsius
    jsFix 4 result

/-- Generic form of the five multiplicative converters: the common body of
convertLength, convertWeight, convertVolume, convertArea and
convertPressure, abstracted over the factor table.  Each of those
functions is definitionally equal to mulConvert applied to its table. -/
def mulConvert (t : String → Option ℚ) (value : JsVal) (fromUnit toUnit : String) : JsVal :=
  if value.falsy || value.isNaN then JsVal.num 0
  else
    let valueInMeters := value.mul (optFactor (t fromUnit))
    let result := valueInMeters.div (optFactor (t toUnit))
    jsFix 10 result

/-- Generic form of the speed converter (inverted table use), abstracted
over the factor table. -/
def divConvert (t : String → Option ℚ) (value : JsVal) (fromUnit toUnit : String) : JsVal :=
  if value.falsy || value.isNaN then JsVal.num 0
  else
    let valueInMs := value.div (optFactor (t fromUnit))
    let result := valueInMs.mul (optFactor (t toUnit))
    jsFix 10 result

theorem convertLength_eq_mulConvert : convertLength = mulConvert conversionFactors.length := rfl

theorem convertWeight_eq_mulConvert : convertWeight = mulConvert conversionFactors.weight := rfl

theorem convertVolume_eq_mulConvert : convertVolume = mulConvert conversionFactors.volume := rfl

theorem convertArea_eq_mulConvert : convertArea = mulConvert conversionFactors.area := rfl

theorem convertPressure_eq_mulConvert : convertPressure = mulConvert conversionFactors.pressure := rfl

theorem convertSpeed_eq_divConvert : convertSpeed = divConvert conversionFactors.speed := rfl

namespace JsVal

@[simp] theorem mul_num_num (x y : ℚ) : (num x).mul (num y) = num (x * y) := rfl

@[simp] theorem add_num_num (x y : ℚ) : (num x).add (num y) = num (x + y) := rfl

@[simp] theorem sub_num_num (x y : ℚ) : (num x).sub (num y) = num (x - y) := rfl

theorem div_num_num {y : ℚ} (x : ℚ) (hy : y ≠ 0) : (num x).div (num y) = num (x / y) := by
  simp [JsVal.div, toNum, hy]

@[simp] theorem mul_undef (a : JsVal) : a.mul undef = nan := by
  cases a <;> rfl

@[simp] theorem undef_div (b : JsVal) : undef.div b = nan := by
  cases b <;> rfl

@[simp] theorem undef_mul (b : JsVal) : undef.mul b = nan := by
  cases b <;> rfl

@[simp] theorem nan_div (b : JsVal) : nan.div b = nan := by
  cases b <;> rfl

@[simp] theorem nan_mul (b : JsVal) : nan.mul b = nan := by
  cases b <;> rfl

@[simp] theorem num_div_undef (x : ℚ) : (num x).div undef = nan := rfl

@[simp] theorem falsy_num (q : ℚ) : (num q).falsy = decide (q = 0) := rfl

@[simp] theorem isNaN_num (q : ℚ) : (num q).isNaN = false := rfl

end JsVal

theorem jsRoundTo_zero (d : ℕ) : jsRoundTo d 0 = 0 := by
  simp [jsRoundTo]

/-- Every factor stored in the length table is strictly positive. -/
theorem length_factor_pos {A : String} {f : ℚ} (h : conversionFactors.length A = some f) :
    0 < f := by
  unfold conversionFactors.length at h
  split_ifs at h <;> simp only [Option.some.injEq] at h <;>
    first
      | exact absurd h (by simp)
      | exact h ▸ by norm_num

/-- Every factor stored in the weight table is strictly positive. -/
theorem weight_factor_pos {A : String} {f : ℚ} (h : conversionFactors.weight A = some f) :
    0 < f := by
  unfold conversionFactors.weight at h
  split_ifs at h <;> simp only [Option.some.injEq] at h <;>
    first
      | exact absurd h (by simp)
      | exact h ▸ by norm_num

/-- Every factor stored in the volume table is strictly positive. -/
theorem volume_factor_pos {A : String} {f : ℚ} (h : conversionFactors.volume A = some f) :
    0 < f := by
  unfold conversionFactors.volume at h
  split_ifs at h <;> simp only [Option.some.injEq] at h <;>
    first
      | exact absurd h (by simp)
      | exact h ▸ by norm_num

/-- Every factor stored in the speed table is strictly positive. -/
theorem speed_factor_pos {A : String} {f : ℚ} (h : conversionFactors.speed A = some f) :
    0 < f := by
  unfold conversionFactors.speed at h
  split_ifs at h <;> simp only [Option.some.injEq] at h <;>
    first
      | exact absurd h (by simp)
      | exact h ▸ by norm_num

/-- Every factor stored in the area table is strictly positive. -/
theorem area_factor_pos {A : String} {f : ℚ} (h : conversionFactors.area A = some f) :
    0 < f := by
  unfold conversionFactors.area at h
  split_ifs at h <;> simp only [Option.some.injEq] at h <;>
    first
      | exact absurd h (by simp)
      | exact h ▸ by norm_num

/-- Every factor stored in the pressure table is strictly positive. -/
theorem pressure_factor_pos {A : String} {f : ℚ} (h : conversionFactors.pressure A = some f) :
    0 < f := by
  unfold conversionFactors.pressure at h
  split_ifs at h <;> simp only [Option.some.injEq] at h <;>
    first
      | exact absurd h (by simp)
      | exact h ▸ by norm_num

/-- Evaluation of a multiplicative converter on a finite input when both
unit symbols are present in the table: the result is the input times the
source factor, divided by the target factor, rounded to 10 decimals. -/
theorem mulConvert_num {t : String → Option ℚ} {A B : String} {fA fB : ℚ}
    (v : ℚ) (hA : t A = some fA) (hB : t B = some fB) (hfB : fB ≠ 0) :
    mulConvert t (JsVal.num v) A B = JsVal.num (jsRoundTo 10 (v * fA / fB)) := by
  unfold mulConvert
  by_cases hv : v = 0
  · subst hv
    simp [jsRoundTo_zero]
  · simp only [JsVal.falsy_num, JsVal.isNaN_num, hA, hB, optFactor, hv, decide_False,
      Bool.or_false, Bool.false_eq_true, if_false]
    rw [JsVal.mul_num_num, JsVal.div_num_num _ hfB]
    rfl

/-- Evaluation of the speed converter on a finite input when both unit
symbols are present in the table: the result is the input divided by the
source factor, times the target factor, rounded to 10 decimals. -/
theorem divConvert_num {t : String → Option ℚ} {A B : String} {fA fB : ℚ}
    (v : ℚ) (hA : t A = some fA) (hB : t B = some fB) (hfA : fA ≠ 0) :
    divConvert t (JsVal.num v) A B = JsVal.num (jsRoundTo 10 (v / fA * fB)) := by
  unfold divConvert
  by_cases hv : v = 0
  · subst hv
    simp [jsRoundTo_zero]
  · simp only [JsVal.falsy_num, JsVal.isNaN_num, hA, hB, optFactor, hv, decide_False,
      Bool.or_false, Bool.false_eq_true, if_false]
    rw [JsVal.div_num_num _ hfA, JsVal.mul_num_num]
    rfl

/-- Rounding to d decimal places moves a rational by at most half of the
last retained decimal place. -/
theorem jsRoundTo_sub_abs (d : ℕ) (q : ℚ) : |jsRoundTo d q - q| ≤ 1 / (2 * 10 ^ d) := by
  have hp : (0:ℚ) < 10 ^ d := by positivity
  have key : ∀ x : ℚ, |((round (x * 10 ^ d) : ℤ) : ℚ) / 10 ^ d - x| ≤ 1 / (2 * 10 ^ d) := by
    intro x
    have h := abs_sub_round (x * 10 ^ d)
    have hx : ((round (x * 10 ^ d) : ℤ) : ℚ) / 10 ^ d - x
        = -((x * 10 ^ d - (round (x * 10 ^ d) : ℤ)) / 10 ^ d) := by
      field_simp
      ring
    rw [hx, abs_neg, abs_div, abs_of_pos hp, div_le_div_iff₀ hp (by positivity)]
    calc |x * 10 ^ d - (round (x * 10 ^ d) : ℤ)| * (2 * 10 ^ d)
        ≤ (1 / 2) * (2 * 10 ^ d) := by
          exact mul_le_mul_of_nonneg_right h (by positivity)
      _ = 1 * 10 ^ d := by ring
  unfold jsRoundTo
  split_ifs with h
  · have := key (-q)
    have hrw : -(((round (-q * 10 ^ d) : ℤ) : ℚ) / 10 ^ d) - q
        = -(((round (-q * 10 ^ d) : ℤ) : ℚ) / 10 ^ d - -q) := by ring
    rw [hrw, abs_neg]
    exact this
  · exact key q

/-- Round-trip error bound for the multiplicative conversion: converting
with scale fA / fB, rounding to 10 decimals, converting back with scale
fB / fA and rounding again lands within 5e-11 * (1 + fB / fA) of the
original value. -/
theorem roundtrip_bound (v fA fB : ℚ) (hfA : 0 < fA) (hfB : 0 < fB) :
    |jsRoundTo 10 (jsRoundTo 10 (v * fA / fB) * fB / fA) - v|
      ≤ 1 / (2 * 10 ^ 10) * (1 + fB / fA) := by
  set w := jsRoundTo 10 (v * fA / fB) with hw
  have h1 : |w - v * fA / fB| ≤ 1 / (2 * 10 ^ 10) := jsRoundTo_sub_abs 10 _
  have h2 : |jsRoundTo 10 (w * fB / fA) - w * fB / fA| ≤ 1 / (2 * 10 ^ 10) :=
    jsRoundTo_sub_abs 10 _
  have hratio : (0:ℚ) < fB / fA := div_pos hfB hfA
  have h3 : |w * fB / fA - v| ≤ 1 / (2 * 10 ^ 10) * (fB / fA) := by
    have hrw : w * fB / fA - v = (w - v * fA / fB) * (fB / fA) := by
      field_simp
      ring
    rw [hrw, abs_mul, abs_of_pos hratio]
    exact mul_le_mul_of_nonneg_right h1 (le_of_lt hratio)
  calc |jsRoundTo 10 (w * fB / fA) - v|
      ≤ |jsRoundTo 10 (w * fB / fA) - w * fB / fA| + |w * fB / fA - v| := by
        exact abs_sub_le _ _ _
    _ ≤ 1 / (2 * 10 ^ 10) + 1 / (2 * 10 ^ 10) * (fB / fA) := add_le_add h2 h3
    _ = 1 / (2 * 10 ^ 10) * (1 + fB / fA) := by ring

/-- When a unit symbol is missing from the table, a multiplicative
converter applied to a truthy finite value produces NaN: the lookup
yields undefined and the arithmetic propagates NaN through toFixed. -/
theorem mulConvert_unknown {t : String → Option ℚ} {A B : String} {v : ℚ}
    (hv : v ≠ 0) (h : t A = none ∨ t B = none) :
    mulConvert t (JsVal.num v) A B = JsVal.nan := by
  unfold mulConvert
  simp only [JsVal.falsy_num, JsVal.isNaN_num, hv, decide_False, Bool.or_false,
    Bool.false_eq_true, if_false]
  rcases h with h | h
  · rw [h]
    simp [optFactor, jsFix]
  · rw [h]
    cases hA : t A <;> simp [optFactor, jsFix]

/-- When a unit symbol is missing from the table, the speed converter
applied to a truthy finite value produces NaN. -/
theorem divConvert_unknown {t : String → Option ℚ} {A B : String} {v : ℚ}
    (hv : v ≠ 0) (h : t A = none ∨ t B = none) :
    divConvert t (JsVal.num v) A B = JsVal.nan := by
  unfold divConvert
  simp only [JsVal.falsy_num, JsVal.isNaN_num, hv, decide_False, Bool.or_false,
    Bool.false_eq_true, if_false]
  rcases h with h | h
  · rw [h]
    simp [optFactor, jsFix]
  · rw [h]
    cases hA : t A with
    | none => simp [optFactor, jsFix]
    | some fA =>
        simp only [optFactor]
        by_cases hfA : fA = 0
        · subst hfA
          by_cases hv2 : 0 < v <;>
            simp [JsVal.div, JsVal.mul, JsVal.toNum, hv, hv2, jsFix]
        · rw [JsVal.div_num_num _ hfA]
          simp [jsFix]

/-- C1: for each multiplicative domain (length, weight, volume, area,
pressure) and every finite truthy value v and unit symbols A, B present in
the table of that domain, the convert function of the domain returns
(v * factor[A] / factor[B]) rounded to 10 decimal places, as a number. -/
theorem multiplicative_domains_formula :
    (∀ (v fA fB : ℚ) (A B : String), v ≠ 0 →
      conversionFactors.length A = some fA → conversionFactors.length B = some fB →
      convertLength (JsVal.num v) A B = JsVal.num (jsRoundTo 10 (v * fA / fB)))
  ∧ (∀ (v fA fB : ℚ) (A B : String), v ≠ 0 →
      conversionFactors.weight A = some fA → conversionFactors.weight B = some fB →
      convertWeight (JsVal.num v) A B = JsVal.num (jsRoundTo 10 (v * fA / fB)))
  ∧ (∀ (v fA fB : ℚ) (A B : String), v ≠ 0 →
      conversionFactors.volume A = some fA → conversionFactors.volume B = some fB →
      convertVolume (JsVal.num v) A B = JsVal.num (jsRoundTo 10 (v * fA / fB)))
  ∧ (∀ (v fA fB : ℚ) (A B : String), v ≠ 0 →
      conversionFactors.area A = some fA → conversionFactors.area B = some fB →
      convertArea (JsVal.num v) A B = JsVal.num (jsRoundTo 10 (v * fA / fB)))
  ∧ (∀ (v fA fB : ℚ) (A B : String), v ≠ 0 →
      conversionFactors.pressure A = some fA → conversionFactors.pressure B = some fB →
      convertPressure (JsVal.num v) A B = JsVal.num (jsRoundTo 10 (v * fA / fB))) := by
  refine ⟨fun v fA fB A B _ hA hB => ?_, fun v fA fB A B _ hA hB => ?_,
    fun v fA fB A B _ hA hB => ?_, fun v fA fB A B _ hA hB => ?_,
    fun v fA fB A B _ hA hB => ?_⟩
  · rw [convertLength_eq_mulConvert]
    exact mulConvert_num v hA hB (ne_of_gt (length_factor_pos hB))
  · rw [convertWeight_eq_mulConvert]
    exact mulConvert_num v hA hB (ne_of_gt (weight_factor_pos hB))
  · rw [convertVolume_eq_mulConvert]
    exact mulConvert_num v hA hB (ne_of_gt (volume_factor_pos hB))
  · rw [convertArea_eq_mulConvert]
    exact mulConvert_num v hA hB (ne_of_gt (area_factor_pos hB))
  · rw [convertPressure_eq_mulConvert]
    exact mulConvert_num v hA hB (ne_of_gt (pressure_factor_pos hB))

/-- Witness for C1: one concrete conversion per multiplicative domain. -/
theorem multiplicative_domains_formula_witness :
    convertLength (JsVal.num 1) "mile" "km" = JsVal.num (jsRoundTo 10 (1 * 1609.344 / 1000))
  ∧ convertWeight (JsVal.num 1) "kg" "lb" = JsVal.num (jsRoundTo 10 (1 * 1 / 0.453592))
  ∧ convertVolume (JsVal.num 2) "gallon" "liter" = JsVal.num (jsRoundTo 10 (2 * 3.78541 / 1))
  ∧ convertArea (JsVal.num 1) "hectare" "m2" = JsVal.num (jsRoundTo 10 (1 * 10000 / 1))
  ∧ convertPressure (JsVal.num 1) "atm" "psi" = JsVal.num (jsRoundTo 10 (1 * 101325 / 6894.76)) :=
  ⟨multiplicative_domains_formula.1 1 1609.344 1000 "mile" "km" (by norm_num) rfl rfl,
   multiplicative_domains_formula.2.1 1 1 0.453592 "kg" "lb" (by norm_num) rfl rfl,
   multiplicative_domains_formula.2.2.1 2 3.78541 1 "gallon" "liter" (by norm_num) rfl rfl,
   multiplicative_domains_formula.2.2.2.1 1 10000 1 "hectare" "m2" (by norm_num) rfl rfl,
   multiplicative_domains_formula.2.2.2.2 1 101325 6894.76 "atm" "psi" (by norm_num) rfl rfl⟩

/-- C2: for every finite truthy value v and speed unit symbols A, B in the
speed table (ms=1, kmh=3.6, mph=2.23694, knots=1.94384), convertSpeed
returns (v / factor[A] * factor[B]) rounded to 10 decimal places, the
reciprocal convention relative to the other five scale-based domains. -/
theorem speed_inverted_formula :
    (∀ (v fA fB : ℚ) (A B : String), v ≠ 0 →
      conversionFactors.speed A = some fA → conversionFactors.speed B = some fB →
      convertSpeed (JsVal.num v) A B = JsVal.num (jsRoundTo 10 (v / fA * fB)))
  ∧ conversionFactors.speed "ms" = some 1
  ∧ conversionFactors.speed "kmh" = some 3.6
  ∧ conversionFactors.speed "mph" = some 2.23694
  ∧ conversionFactors.speed "knots" = some 1.94384 := by
  refine ⟨fun v fA fB A B _ hA hB => ?_, rfl, rfl, rfl, rfl⟩
  rw [convertSpeed_eq_divConvert]
  exact divConvert_num v hA hB (ne_of_gt (speed_factor_pos hA))

/-- Witness for C2: the 100 kmh to mph conversion. -/
theorem speed_inverted_formula_witness :
    convertSpeed (JsVal.num 100) "kmh" "mph" = JsVal.num (jsRoundTo 10 (100 / 3.6 * 2.23694)) :=
  speed_inverted_formula.1 100 3.6 2.23694 "kmh" "mph" (by norm_num) rfl rfl

/-- C3: the four temperature fixed points: 0 C is 32 F, 100 C is 212 F,
0 C is 273.15 K, and 32 F is 0 C. -/
theorem temperature_fixed_points :
    convertTemperature (JsVal.num 0) "celsius" "fahrenheit" = JsVal.num 32
  ∧ convertTemperature (JsVal.num 100) "celsius" "fahrenheit" = JsVal.num 212
  ∧ convertTemperature (JsVal.num 0) "celsius" "kelvin" = JsVal.num 273.15
  ∧ convertTemperature (JsVal.num 32) "fahrenheit" "celsius" = JsVal.num 0 := by
  refine ⟨?_, ?_, ?_, ?_⟩
  · have h : convertTemperature (JsVal.num 0) "celsius" "fahrenheit"
        = JsVal.num (jsRoundTo 4 (0 * (9 / 5) + 32)) := rfl
    rw [h]
    norm_num [jsRoundTo, round_eq]
  · have h : convertTemperature (JsVal.num 100) "celsius" "fahrenheit"
        = JsVal.num (jsRoundTo 4 (100 * (9 / 5) + 32)) := rfl
    rw [h]
    norm_num [jsRoundTo, round_eq]
  · have h : convertTemperature (JsVal.num 0) "celsius" "kelvin"
        = JsVal.num (jsRoundTo 4 (0 + 273.15)) := rfl
    rw [h]
    norm_num [jsRoundTo, round_eq]
  · have h : convertTemperature (JsVal.num 32) "fahrenheit" "celsius"
        = JsVal.num (jsRoundTo 4 ((32 - 32) * (5 / 9))) := rfl
    rw [h]
    norm_num [jsRoundTo, round_eq]

/-- Round trip through a multiplicative converter pair, in terms of the
generic converter. -/
theorem mulConvert_roundtrip {t : String → Option ℚ} {A B : String} {fA fB : ℚ}
    (v : ℚ) (hA : t A = some fA) (hB : t B = some fB) (hfA : 0 < fA) (hfB : 0 < fB) :
    ∃ w u : ℚ, mulConvert t (JsVal.num v) A B = JsVal.num w ∧
      mulConvert t (JsVal.num w) B A = JsVal.num u ∧
      |u - v| ≤ 1 / (2 * 10 ^ 10) * (1 + fB / fA) :=
  ⟨jsRoundTo 10 (v * fA / fB), jsRoundTo 10 (jsRoundTo 10 (v * fA / fB) * fB / fA),
    mulConvert_num v hA hB (ne_of_gt hfB), mulConvert_num _ hB hA (ne_of_gt hfA),
    roundtrip_bound v fA fB hfA hfB⟩

/-- Round trip through the speed converter pair, in terms of the generic
converter. -/
theorem divConvert_roundtrip {t : String → Option ℚ} {A B : String} {fA fB : ℚ}
    (v : ℚ) (hA : t A = some fA) (hB : t B = some fB) (hfA : 0 < fA) (hfB : 0 < fB) :
    ∃ w u : ℚ, divConvert t (JsVal.num v) A B = JsVal.num w ∧
      divConvert t (JsVal.num w) B A = JsVal.num u ∧
      |u - v| ≤ 1 / (2 * 10 ^ 10) * (1 + fA / fB) := by
  refine ⟨jsRoundTo 10 (v / fA * fB), jsRoundTo 10 (jsRoundTo 10 (v / fA * fB) / fB * fA),
    divConvert_num v hA hB (ne_of_gt hfA), divConvert_num _ hB hA (ne_of_gt hfB), ?_⟩
  have e1 : v / fA * fB = v * fB / fA := by ring
  have e2 : ∀ x : ℚ, x / fB * fA = x * fA / fB := fun x => by ring
  rw [e1, e2]
  exact roundtrip_bound v fB fA hfB hfA

/-- Counterexample to C4: one square millimeter converted to square
kilometers rounds to 0 at 10 decimal places, so converting back yields 0,
an absolute round-trip error of 1, far above the claimed 1e-9 tolerance. -/
theorem roundtrip_tolerance_counterexample :
    convertArea (JsVal.num 1) "mm2" "km2" = JsVal.num 0
  ∧ convertArea (JsVal.num 0) "km2" "mm2" = JsVal.num 0
  ∧ ¬ (|(0 : ℚ) - 1| ≤ 1 / 10 ^ 9) := by
  refine ⟨?_, rfl, by norm_num⟩
  have h : convertArea (JsVal.num 1) "mm2" "km2"
      = JsVal.num (jsRoundTo 10 (1 * 0.000001 / 1000000)) := rfl
  rw [h]
  norm_num [jsRoundTo, round_eq]

/-- C4 as amended: for every scale-based domain and valid unit pair A, B,
the round trip differs from the original value by at most
5e-11 * (1 + s), where s is the scale applied by the reverse conversion
(factor[B]/factor[A] for the multiplicative domains, factor[A]/factor[B]
for speed); the uniform 1e-9 bound of the claim fails once s is large. -/
theorem roundtrip_scaled_tolerance :
    (∀ (v fA fB : ℚ) (A B : String),
      conversionFactors.length A = some fA → conversionFactors.length B = some fB →
      ∃ w u : ℚ, convertLength (JsVal.num v) A B = JsVal.num w ∧
        convertLength (JsVal.num w) B A = JsVal.num u ∧
        |u - v| ≤ 1 / (2 * 10 ^ 10) * (1 + fB / fA))
  ∧ (∀ (v fA fB : ℚ) (A B : String),
      conversionFactors.weight A = some fA → conversionFactors.weight B = some fB →
      ∃ w u : ℚ, convertWeight (JsVal.num v) A B = JsVal.num w ∧
        convertWeight (JsVal.num w) B A = JsVal.num u ∧
        |u - v| ≤ 1 / (2 * 10 ^ 10) * (1 + fB / fA))
  ∧ (∀ (v fA fB : ℚ) (A B : String),
      conversionFactors.volume A = some fA → conversionFactors.volume B = some fB →
      ∃ w u : ℚ, convertVolume (JsVal.num v) A B = JsVal.num w ∧
        convertVolume (JsVal.num w) B A = JsVal.num u ∧
        |u - v| ≤ 1 / (2 * 10 ^ 10) * (1 + fB / fA))
  ∧ (∀ (v fA fB : ℚ) (A B : String),
      conversionFactors.area A = some fA → conversionFactors.area B = some fB →
      ∃ w u : ℚ, convertArea (JsVal.num v) A B = JsVal.num w ∧
        convertArea (JsVal.num w) B A = JsVal.num u ∧
        |u - v| ≤ 1 / (2 * 10 ^ 10) * (1 + fB / fA))
  ∧ (∀ (v fA fB : ℚ) (A B : String),
      conversionFactors.pressure A = some fA → conversionFactors.pressure B = some fB →
      ∃ w u : ℚ, convertPressure (JsVal.num v) A B = JsVal.num w ∧
        convertPressure (JsVal.num w) B A = JsVal.num u ∧
        |u - v| ≤ 1 / (2 * 10 ^ 10) * (1 + fB / fA))
  ∧ (∀ (v fA fB : ℚ) (A B : String),
      conversionFactors.speed A = some fA → conversionFactors.speed B = some fB →
      ∃ w u : ℚ, convertSpeed (JsVal.num v) A B = JsVal.num w ∧
        convertSpeed (JsVal.num w) B A = JsVal.num u ∧
        |u - v| ≤ 1 / (2 * 10 ^ 10) * (1 + fA / fB)) := by
  refine ⟨fun v fA fB A B hA hB => ?_, fun v fA fB A B hA hB => ?_,
    fun v fA fB A B hA hB => ?_, fun v fA fB A B hA hB => ?_,
    fun v fA fB A B hA hB => ?_, fun v fA fB A B hA hB => ?_⟩
  · rw [convertLength_eq_mulConvert]
    exact mulConvert_roundtrip v hA hB (length_factor_pos hA) (length_factor_pos hB)
  · rw [convertWeight_eq_mulConvert]
    exact mulConvert_roundtrip v hA hB (weight_factor_pos hA) (weight_factor_pos hB)
  · rw [convertVolume_eq_mulConvert]
    exact mulConvert_roundtrip v hA hB (volume_factor_pos hA) (volume_factor_pos hB)
  · rw [convertArea_eq_mulConvert]
    exact mulConvert_roundtrip v hA hB (area_factor_pos hA) (area_factor_pos hB)
  · rw [convertPressure_eq_mulConvert]
    exact mulConvert_roundtrip v hA hB (pressure_factor_pos hA) (pressure_factor_pos hB)
  · rw [convertSpeed_eq_divConvert]
    exact divConvert_roundtrip v hA hB (speed_factor_pos hA) (speed_factor_pos hB)

/-- Witness for the amended C4: the meter/kilometer round trip at 1. -/
theorem roundtrip_scaled_tolerance_witness :
    ∃ w u : ℚ, convertLength (JsVal.num 1) "m" "km" = JsVal.num w ∧
      convertLength (JsVal.num w) "km" "m" = JsVal.num u ∧
      |u - 1| ≤ 1 / (2 * 10 ^ 10) * (1 + 1000 / 1) :=
  roundtrip_scaled_tolerance.1 1 1 1000 "m" "km" rfl rfl

/-- C5 evaluated against the code: when fromUnit or toUnit is absent from
the factor table of a scale-based domain and the input is a truthy finite
number, the converter returns NaN rather than signaling an UnknownUnit
error; the lookup yields undefined and the arithmetic silently produces
NaN, which toFixed turns into the string NaN and parseFloat back into
NaN. -/
theorem unknown_unit_yields_nan :
    (∀ (v : ℚ) (A B : String), v ≠ 0 →
      (conversionFactors.length A = none ∨ conversionFactors.length B = none) →
      convertLength (JsVal.num v) A B = JsVal.nan)
  ∧ (∀ (v : ℚ) (A B : String), v ≠ 0 →
      (conversionFactors.weight A = none ∨ conversionFactors.weight B = none) →
      convertWeight (JsVal.num v) A B = JsVal.nan)
  ∧ (∀ (v : ℚ) (A B : String), v ≠ 0 →
      (conversionFactors.volume A = none ∨ conversionFactors.volume B = none) →
      convertVolume (JsVal.num v) A B = JsVal.nan)
  ∧ (∀ (v : ℚ) (A B : String), v ≠ 0 →
      (conversionFactors.area A = none ∨ conversionFactors.area B = none) →
      convertArea (JsVal.num v) A B = JsVal.nan)
  ∧ (∀ (v : ℚ) (A B : String), v ≠ 0 →
      (conversionFactors.pressure A = none ∨ conversionFactors.pressure B = none) →
      convertPressure (JsVal.num v) A B = JsVal.nan)
  ∧ (∀ (v : ℚ) (A B : String), v ≠ 0 →
      (conversionFactors.speed A = none ∨ conversionFactors.speed B = none) →
      convertSpeed (JsVal.num v) A B = JsVal.nan) := by
  refine ⟨fun v A B hv h => ?_, fun v A B hv h => ?_, fun v A B hv h => ?_,
    fun v A B hv h => ?_, fun v A B hv h => ?_, fun v A B hv h => ?_⟩
  · rw [convertLength_eq_mulConvert]
    exact mulConvert_unknown hv h
  · rw [convertWeight_eq_mulConvert]
    exact mulConvert_unknown hv h
  · rw [convertVolume_eq_mulConvert]
    exact mulConvert_unknown hv h
  · rw [convertArea_eq_mulConvert]
    exact mulConvert_unknown hv h
  · rw [convertPressure_eq_mulConvert]
    exact mulConvert_unknown hv h
  · rw [convertSpeed_eq_divConvert]
    exact divConvert_unknown hv h

/-- Witness for C5: converting 1 from the unknown length unit parsec. -/
theorem unknown_unit_yields_nan_witness :
    convertLength (JsVal.num 1) "parsec" "m" = JsVal.nan :=
  unknown_unit_yields_nan.1 1 "parsec" "m" (by norm_num) (Or.inl rfl)

/-- Counterexample to C6: an infinite input is non-finite, yet the length
converter propagates it unchanged instead of returning 0 (Infinity is
truthy and not NaN, so the sanitation test misses it), and the
temperature converter does the same. -/
theorem nonfinite_zero_counterexample :
    convertLength JsVal.posInf "m" "m" = JsVal.posInf
  ∧ convertTemperature JsVal.posInf "celsius" "celsius" = JsVal.posInf
  ∧ JsVal.posInf ≠ JsVal.num 0 :=
  ⟨rfl, rfl, fun h => JsVal.noConfusion h⟩

/-- C6 as amended: a NaN or absent (undefined) input value yields 0 in
every linear converter and in the temperature converter; infinite inputs
are not sanitized and propagate instead. -/
theorem nan_or_absent_input_yields_zero :
    (∀ A B : String, convertLength JsVal.nan A B = JsVal.num 0
      ∧ convertLength JsVal.undef A B = JsVal.num 0)
  ∧ (∀ A B : String, convertWeight JsVal.nan A B = JsVal.num 0
      ∧ convertWeight JsVal.undef A B = JsVal.num 0)
  ∧ (∀ A B : String, convertVolume JsVal.nan A B = JsVal.num 0
      ∧ convertVolume JsVal.undef A B = JsVal.num 0)
  ∧ (∀ A B : String, convertSpeed JsVal.nan A B = JsVal.num 0
      ∧ convertSpeed JsVal.undef A B = JsVal.num 0)
  ∧ (∀ A B : String, convertArea JsVal.nan A B = JsVal.num 0
      ∧ convertArea JsVal.undef A B = JsVal.num 0)
  ∧ (∀ A B : String, convertPressure JsVal.nan A B = JsVal.num 0
      ∧ convertPressure JsVal.undef A B = JsVal.num 0)
  ∧ (∀ A B : String, convertTemperature JsVal.nan A B = JsVal.num 0
      ∧ convertTemperature JsVal.undef A B = JsVal.num 0) :=
  ⟨fun _ _ => ⟨rfl, rfl⟩, fun _ _ => ⟨rfl, rfl⟩, fun _ _ => ⟨rfl, rfl⟩,
   fun _ _ => ⟨rfl, rfl⟩, fun _ _ => ⟨rfl, rfl⟩, fun _ _ => ⟨rfl, rfl⟩,
   fun _ _ => ⟨rfl, rfl⟩⟩

/-- C8: in convertTemperature an unknown fromUnit is treated as Celsius,
an unknown toUnit yields the Celsius pivot value, and every result is
rounded to 4 decimal places. -/
theorem temperature_defaults_and_rounding :
    (∀ (v : ℚ) (fu tu : String), fu ≠ "celsius" → fu ≠ "fahrenheit" → fu ≠ "kelvin" →
      convertTemperature (JsVal.num v) fu tu = convertTemperature (JsVal.num v) "celsius" tu)
  ∧ (∀ (v : ℚ) (fu tu : String), tu ≠ "celsius" → tu ≠ "fahrenheit" → tu ≠ "kelvin" →
      convertTemperature (JsVal.num v) fu tu = convertTemperature (JsVal.num v) fu "celsius")
  ∧ (∀ (v : ℚ) (fu tu : String), ∃ r : ℚ,
      convertTemperature (JsVal.num v) fu tu = JsVal.num (jsRoundTo 4 r)) := by
  refine ⟨fun v fu tu h1 h2 h3 => ?_, fun v fu tu h1 h2 h3 => ?_, fun v fu tu => ?_⟩
  · simp [convertTemperature, if_neg h1, if_neg h2, if_neg h3]
  · simp [convertTemperature, if_neg h1, if_neg h2, if_neg h3]
  · simp only [convertTemperature, JsVal.isNaN_num, Bool.false_eq_true, if_false]
    split_ifs <;> exact ⟨_, rfl⟩

/-- Witness for C8: the unknown symbols rankine and zork default to the
Celsius identity on either side. -/
theorem temperature_defaults_and_rounding_witness :
    convertTemperature (JsVal.num 5) "rankine" "fahrenheit"
      = convertTemperature (JsVal.num 5) "celsius" "fahrenheit"
  ∧ convertTemperature (JsVal.num 5) "kelvin" "zork"
      = convertTemperature (JsVal.num 5) "kelvin" "celsius" :=
  ⟨temperature_defaults_and_rounding.1 5 "rankine" "fahrenheit"
      (by decide) (by decide) (by decide),
   temperature_defaults_and_rounding.2.1 5 "kelvin" "zork"
      (by decide) (by decide) (by decide)⟩

/-- C10: sanitation runs before the registry lookup, so for input 0 or
NaN every linear converter returns 0 whatever the unit strings are, even
strings absent from the table: degenerate input masks unknown units. -/
theorem degenerate_input_masks_units :
    (∀ A B : String, convertLength (JsVal.num 0) A B = JsVal.num 0
      ∧ convertLength JsVal.nan A B = JsVal.num 0)
  ∧ (∀ A B : String, convertWeight (JsVal.num 0) A B = JsVal.num 0
      ∧ convertWeight JsVal.nan A B = JsVal.num 0)
  ∧ (∀ A B : String, convertVolume (JsVal.num 0) A B = JsVal.num 0
      ∧ convertVolume JsVal.nan A B = JsVal.num 0)
  ∧ (∀ A B : String, convertSpeed (JsVal.num 0) A B = JsVal.num 0
      ∧ convertSpeed JsVal.nan A B = JsVal.num 0)
  ∧ (∀ A B : String, convertArea (JsVal.num 0) A B = JsVal.num 0
      ∧ convertArea JsVal.nan A B = JsVal.num 0)
  ∧ (∀ A B : String, convertPressure (JsVal.num 0) A B = JsVal.num 0
      ∧ convertPressure JsVal.nan A B = JsVal.num 0) :=
  ⟨fun _ _ => ⟨rfl, rfl⟩, fun _ _ => ⟨rfl, rfl⟩, fun _ _ => ⟨rfl, rfl⟩,
   fun _ _ => ⟨rfl, rfl⟩, fun _ _ => ⟨rfl, rfl⟩, fun _ _ => ⟨rfl, rfl⟩⟩

/-- Variant of the multiplicative converter described by the open question
in section 9 of the spec: same body, but the sanitation tests only NaN
instead of the blanket falsy test. Stated from the words of the spec for
the refinement comparison of C9. -/
def mulConvertNaNOnly (t : String → Option ℚ) (value : JsVal) (fromUnit toUnit : String) : JsVal :=
  if value.isNaN then JsVal.num 0
  else
    let base := value.mul (optFactor (t fromUnit))
    let result := base.div (optFactor (t toUnit))
    jsFix 10 result

/-- Variant of the speed converter that sanitizes only NaN, for the
refinement comparison of C9. -/
def divConvertNaNOnly (t : String → Option ℚ) (value : JsVal) (fromUnit toUnit : String) : JsVal :=
  if value.isNaN then JsVal.num 0
  else
    let base := value.div (optFactor (t fromUnit))
    let result := base.mul (optFactor (t toUnit))
    jsFix 10 result

theorem mulConvertNaNOnly_num {t : String → Option ℚ} {A B : String} {fA fB : ℚ}
    (v : ℚ) (hA : t A = some fA) (hB : t B = some fB) (hfB : fB ≠ 0) :
    mulConvertNaNOnly t (JsVal.num v) A B = JsVal.num (jsRoundTo 10 (v * fA / fB)) := by
  unfold mulConvertNaNOnly
  simp only [JsVal.isNaN_num, Bool.false_eq_true, if_false, hA, hB, optFactor]
  rw [JsVal.mul_num_num, JsVal.div_num_num _ hfB]
  rfl

theorem divConvertNaNOnly_num {t : String → Option ℚ} {A B : String} {fA fB : ℚ}
    (v : ℚ) (hA : t A = some fA) (hB : t B = some fB) (hfA : fA ≠ 0) :
    divConvertNaNOnly t (JsVal.num v) A B = JsVal.num (jsRoundTo 10 (v / fA * fB)) := by
  unfold divConvertNaNOnly
  simp only [JsVal.isNaN_num, Bool.false_eq_true, if_false, hA, hB, optFactor]
  rw [JsVal.div_num_num _ hfA, JsVal.mul_num_num]
  rfl

/-- C9: the falsy-to-zero short circuit is harmless on valid input: for
every scale-based domain and valid unit pair, converting 0 yields 0, and
on every finite input the source converter agrees with the variant that
sanitizes only NaN. -/
theorem falsy_shortcircuit_harmless :
    (∀ (v fA fB : ℚ) (A B : String),
      conversionFactors.length A = some fA → conversionFactors.length B = some fB →
      convertLength (JsVal.num 0) A B = JsVal.num 0 ∧
      convertLength (JsVal.num v) A B
        = mulConvertNaNOnly conversionFactors.length (JsVal.num v) A B)
  ∧ (∀ (v fA fB : ℚ) (A B : String),
      conversionFactors.weight A = some fA → conversionFactors.weight B = some fB →
      convertWeight (JsVal.num 0) A B = JsVal.num 0 ∧
      convertWeight (JsVal.num v) A B
        = mulConvertNaNOnly conversionFactors.weight (JsVal.num v) A B)
  ∧ (∀ (v fA fB : ℚ) (A B : String),
      conversionFactors.volume A = some fA → conversionFactors.volume B = some fB →
      convertVolume (JsVal.num 0) A B = JsVal.num 0 ∧
      convertVolume (JsVal.num v) A B
        = mulConvertNaNOnly conversionFactors.volume (JsVal.num v) A B)
  ∧ (∀ (v fA fB : ℚ) (A B : String),
      conversionFactors.area A = some fA → conversionFactors.area B = some fB →
      convertArea (JsVal.num 0) A B = JsVal.num 0 ∧
      convertArea (JsVal.num v) A B
        = mulConvertNaNOnly conversionFactors.area (JsVal.num v) A B)
  ∧ (∀ (v fA fB : ℚ) (A B : String),
      conversionFactors.pressure A = some fA → conversionFactors.pressure B = some fB →
      convertPressure (JsVal.num 0) A B = JsVal.num 0 ∧
      convertPressure (JsVal.num v) A B
        = mulConvertNaNOnly conversionFactors.pressure (JsVal.num v) A B)
  ∧ (∀ (v fA fB : ℚ) (A B : String),
      conversionFactors.speed A = some fA → conversionFactors.speed B = some fB →
      convertSpeed (JsVal.num 0) A B = JsVal.num 0 ∧
      convertSpeed (JsVal.num v) A B
        = divConvertNaNOnly conversionFactors.speed (JsVal.num v) A B) := by
  refine ⟨fun v fA fB A B hA hB => ⟨rfl, ?_⟩, fun v fA fB A B hA hB => ⟨rfl, ?_⟩,
    fun v fA fB A B hA hB => ⟨rfl, ?_⟩, fun v fA fB A B hA hB => ⟨rfl, ?_⟩,
    fun v fA fB A B hA hB => ⟨rfl, ?_⟩, fun v fA fB A B hA hB => ⟨rfl, ?_⟩⟩
  · rw [convertLength_eq_mulConvert, mulConvert_num v hA hB (ne_of_gt (length_factor_pos hB)),
      mulConvertNaNOnly_num v hA hB (ne_of_gt (length_factor_pos hB))]
  · rw [convertWeight_eq_mulConvert, mulConvert_num v hA hB (ne_of_gt (weight_factor_pos hB)),
      mulConvertNaNOnly_num v hA hB (ne_of_gt (weight_factor_pos hB))]
  · rw [convertVolume_eq_mulConvert, mulConvert_num v hA hB (ne_of_gt (volume_factor_pos hB)),
      mulConvertNaNOnly_num v hA hB (ne_of_gt (volume_factor_pos hB))]
  · rw [convertArea_eq_mulConvert, mulConvert_num v hA hB (ne_of_gt (area_factor_pos hB)),
      mulConvertNaNOnly_num v hA hB (ne_of_gt (area_factor_pos hB))]
  · rw [convertPressure_eq_mulConvert, mulConvert_num v hA hB (ne_of_gt (pressure_factor_pos hB)),
      mulConvertNaNOnly_num v hA hB (ne_of_gt (pressure_factor_pos hB))]
  · rw [convertSpeed_eq_divConvert, divConvert_num v hA hB (ne_of_gt (speed_factor_pos hA)),
      divConvertNaNOnly_num v hA hB (ne_of_gt (speed_factor_pos hA))]

/-- Witness for C9: the meter/kilometer pair at the value 3. -/
theorem falsy_shortcircuit_harmless_witness :
    convertLength (JsVal.num 0) "m" "km" = JsVal.num 0 ∧
    convertLength (JsVal.num 3) "m" "km"
      = mulConvertNaNOnly conversionFactors.length (JsVal.num 3) "m" "km" :=
  falsy_shortcircuit_harmless.1 3 1 1000 "m" "km" rfl rfl

/-- Exactly k decimal digits of n, zero-padded on the left (the low k
digits of n in base 10). -/
def digitsStr : ℕ → ℕ → String
  | 0, _ => ""
  | k + 1, n => digitsStr k (n / 10) ++ toString (n % 10)

/-- Decimal rendering of a natural number with en-US thousands grouping:
groups of three digits separated by commas. -/
def groupNat (n : ℕ) : String :=
  if _h : n < 1000 then toString n
  else groupNat (n / 1000) ++ "," ++ digitsStr 3 (n % 1000)
termination_by n
decreasing_by exact Nat.div_lt_self (by omega) (by omega)

/-- Drop trailing zero digits from a fraction of at most k digits,
returning the remaining digits value and their count. -/
def stripZeros : ℕ → ℕ → ℕ × ℕ
  | f, 0 => (f, 0)
  | f, k + 1 => if f % 10 = 0 then stripZeros (f / 10) k else (f, k + 1)

/-- The string produced by toExponential(6): sign, one mantissa digit, a
point, six mantissa digits, the letter e and a signed exponent. -/
def expStr (neg : Bool) (n : ℕ) (e : ℤ) : String :=
  (if neg then "-" else "") ++ toString (n / 10 ^ 6) ++ "." ++ digitsStr 6 (n % 10 ^ 6)
    ++ "e" ++ (if e < 0 then "-" else "+") ++ toString e.natAbs

/-- The string produced by the en-US fixed notation: sign, grouped integer
part, and, when k is not zero, a point followed by the k fraction
digits. -/
def fixedStr (neg : Bool) (ip f k : ℕ) : String :=
  (if neg then "-" else "") ++ groupNat ip ++ (if k = 0 then "" else "." ++ digitsStr k f)

/-- Model of Number.prototype.toExponential(6): write |q| as n * 10^(e-6)
with 10^6 <= n < 10^7 (rounding n to the nearest integer, ties away from
zero, bumping the exponent when rounding overflows to 10^7) and print
sign, mantissa and exponent. -/
def toExponential6 (q : ℚ) : String :=
  let a := |q|
  let e := Int.log 10 a
  let n := (round (a * (10:ℚ) ^ ((6:ℤ) - e))).toNat
  if n = 10 ^ 7 then expStr (decide (q < 0)) (10 ^ 6) (e + 1)
  else expStr (decide (q < 0)) n e

/-- Model of toLocaleString with the en-US locale, maximumFractionDigits 6
and minimumFractionDigits 0: round the magnitude to 6 fraction digits
(half away from zero, the default halfExpand mode), group the integer
part in thousands and drop trailing fraction zeros. -/
def toLocaleStringEn6 (q : ℚ) : String :=
  let n := (round (|q| * 10 ^ 6)).toNat
  let p := stripZeros (n % 10 ^ 6) 6
  fixedStr (decide (q < 0)) (n / 10 ^ 6) p.1 p.2

/-- Format number with appropriate decimal places (function formatNumber
of the source). -/
def formatNumber (num : ℚ) : String :=
  if num = 0 then "0"
  else if |num| < 0.0001 ∨ |num| > 1000000 then toExponential6 num
  else toLocaleStringEn6 num

theorem toString_digit_length : ∀ d : ℕ, d < 10 → (toString d).length = 1 := by decide

/-- digitsStr always produces exactly k characters. -/
theorem digitsStr_length (k : ℕ) : ∀ n : ℕ, (digitsStr k n).length = k := by
  induction k with
  | zero => intro n; rfl
  | succ k ih =>
    intro n
    show (digitsStr k (n / 10) ++ toString (n % 10)).length = k + 1
    rw [String.length_append, ih, toString_digit_length _ (Nat.mod_lt _ (by norm_num))]

/-- stripZeros keeps at most the given number of digits, stays below the
corresponding power of ten, and never ends in a zero digit unless it is
empty. -/
theorem stripZeros_spec (k : ℕ) : ∀ f : ℕ, f < 10 ^ k →
    (stripZeros f k).2 ≤ k ∧ (stripZeros f k).1 < 10 ^ (stripZeros f k).2 ∧
    ((stripZeros f k).2 = 0 ∨ ¬ (10 ∣ (stripZeros f k).1)) := by
  induction k with
  | zero => intro f hf; exact ⟨le_refl 0, hf, Or.inl rfl⟩
  | succ k ih =>
    intro f hf
    by_cases h : f % 10 = 0
    · simp only [stripZeros, if_pos h]
      have hp : (10:ℕ) ^ (k + 1) = 10 ^ k * 10 := pow_succ 10 k
      have hf10 : f / 10 < 10 ^ k := by omega
      obtain ⟨s1, s2, s3⟩ := ih (f / 10) hf10
      exact ⟨s1.trans (by omega), s2, s3⟩
    · simp only [stripZeros, if_neg h]
      exact ⟨le_refl _, hf, Or.inr fun hd => h (by omega)⟩

/-- Shape of the toExponential6 output: a sign, a mantissa n with
10^6 <= n < 10^7 (one leading digit, six fraction digits) and an
exponent. -/
theorem toExponential6_shape (q : ℚ) (hq : q ≠ 0) :
    ∃ N : ℕ, ∃ E : ℤ, 10 ^ 6 ≤ N ∧ N < 10 ^ 7 ∧
      toExponential6 q = expStr (decide (q < 0)) N E := by
  simp only [toExponential6]
  set a := |q| with ha_def
  set e := Int.log 10 a with he_def
  set x := a * (10:ℚ) ^ ((6:ℤ) - e) with hx_def
  set n := (round x).toNat with hn_def
  have ha : (0:ℚ) < a := abs_pos.2 hq
  have hle : (10:ℚ) ^ e ≤ a := Int.zpow_log_le_self (by norm_num) ha
  have hlt : a < (10:ℚ) ^ (e + 1) := Int.lt_zpow_succ_log_self (by norm_num) a
  have hp : (0:ℚ) < (10:ℚ) ^ ((6:ℤ) - e) := zpow_pos (by norm_num) _
  have hsplit6 : (10:ℚ) ^ (6:ℤ) = (10:ℚ) ^ e * (10:ℚ) ^ ((6:ℤ) - e) := by
    rw [← zpow_add₀ (by norm_num : (10:ℚ) ≠ 0)]
    congr 1
    ring
  have hsplit7 : (10:ℚ) ^ (7:ℤ) = (10:ℚ) ^ (e + 1) * (10:ℚ) ^ ((6:ℤ) - e) := by
    rw [← zpow_add₀ (by norm_num : (10:ℚ) ≠ 0)]
    congr 1
    ring
  have hx1 : (10:ℚ) ^ (6:ℤ) ≤ x := by
    rw [hx_def, hsplit6]
    exact mul_le_mul_of_nonneg_right hle (le_of_lt hp)
  have hx2 : x < (10:ℚ) ^ (7:ℤ) := by
    rw [hx_def, hsplit7]
    exact mul_lt_mul_of_pos_right hlt hp
  have hx1n : (1000000 : ℚ) ≤ x := by
    have hh : ((10:ℚ) ^ (6:ℤ)) = 1000000 := by norm_num
    rw [hh] at hx1
    exact hx1
  have hx2n : x < (10000000 : ℚ) := by
    have hh : ((10:ℚ) ^ (7:ℤ)) = 10000000 := by norm_num
    rw [hh] at hx2
    exact hx2
  have hr1 : (1000000 : ℤ) ≤ round x := by
    rw [round_eq]
    refine Int.le_floor.2 ?_
    push_cast
    linarith
  have hr2 : round x ≤ 10000000 := by
    rw [round_eq]
    have hfl : ⌊x + 1 / 2⌋ < 10000000 + 1 := by
      refine Int.floor_lt.2 ?_
      push_cast
      linarith
    omega
  have hn1 : 10 ^ 6 ≤ n := by
    rw [hn_def]
    omega
  have hn2 : n ≤ 10 ^ 7 := by
    rw [hn_def]
    omega
  by_cases hcase : n = 10 ^ 7
  · exact ⟨10 ^ 6, e + 1, by norm_num, by norm_num, by rw [if_pos hcase]⟩
  · exact ⟨n, e, hn1, by omega, by rw [if_neg hcase]⟩

/-- Shape of the toLocaleStringEn6 output: a sign, a grouped integer part
and at most six fraction digits without trailing zeros. -/
theorem toLocaleStringEn6_shape (q : ℚ) :
    ∃ ip f k : ℕ, k ≤ 6 ∧ f < 10 ^ k ∧ (k = 0 ∨ ¬ (10 ∣ f)) ∧
      toLocaleStringEn6 q = fixedStr (decide (q < 0)) ip f k := by
  simp only [toLocaleStringEn6]
  have hm : (round (|q| * 10 ^ 6)).toNat % 10 ^ 6 < 10 ^ 6 := Nat.mod_lt _ (by norm_num)
  obtain ⟨s1, s2, s3⟩ := stripZeros_spec 6 _ hm
  exact ⟨(round (|q| * 10 ^ 6)).toNat / 10 ^ 6,
    (stripZeros ((round (|q| * 10 ^ 6)).toNat % 10 ^ 6) 6).1,
    (stripZeros ((round (|q| * 10 ^ 6)).toNat % 10 ^ 6) 6).2, s1, s2, s3, rfl⟩

/-- C7: formatNumber maps exactly 0 to the string 0; any number of
magnitude strictly below 0.0001 or strictly above 1000000 to exponential
notation with six digits after the mantissa point; and every other number
to fixed notation with thousands grouping and at most six fraction digits
without trailing-zero padding. -/
theorem formatNumber_policy :
    formatNumber 0 = "0"
  ∧ (∀ q : ℚ, q ≠ 0 → (|q| < 0.0001 ∨ |q| > 1000000) →
      ∃ N : ℕ, ∃ E : ℤ, 10 ^ 6 ≤ N ∧ N < 10 ^ 7 ∧
        formatNumber q = expStr (decide (q < 0)) N E)
  ∧ (∀ q : ℚ, q ≠ 0 → ¬ (|q| < 0.0001 ∨ |q| > 1000000) →
      ∃ ip f k : ℕ, k ≤ 6 ∧ f < 10 ^ k ∧ (k = 0 ∨ ¬ (10 ∣ f)) ∧
        formatNumber q = fixedStr (decide (q < 0)) ip f k) := by
  refine ⟨rfl, fun q hq hr => ?_, fun q hq hr => ?_⟩
  · obtain ⟨N, E, h1, h2, h3⟩ := toExponential6_shape q hq
    refine ⟨N, E, h1, h2, ?_⟩
    unfold formatNumber
    rw [if_neg hq, if_pos hr]
    exact h3
  · obtain ⟨ip, f, k, h1, h2, h3, h4⟩ := toLocaleStringEn6_shape q
    refine ⟨ip, f, k, h1, h2, h3, ?_⟩
    unfold formatNumber
    rw [if_neg hq, if_neg hr]
    exact h4

/-- Witness for C7: 0.00005 goes to the exponential branch and 1234.5 to
the fixed branch. -/
theorem formatNumber_policy_witness :
    (∃ N : ℕ, ∃ E : ℤ, 10 ^ 6 ≤ N ∧ N < 10 ^ 7 ∧
      formatNumber (1 / 20000) = expStr (decide ((1 / 20000 : ℚ) < 0)) N E)
  ∧ (∃ ip f k : ℕ, k ≤ 6 ∧ f < 10 ^ k ∧ (k = 0 ∨ ¬ (10 ∣ f)) ∧
      formatNumber 1234.5 = fixedStr (decide ((1234.5 : ℚ) < 0)) ip f k) :=
  ⟨formatNumber_policy.2.1 (1 / 20000) (by norm_num)
      (Or.inl (by rw [show |(1 / 20000 : ℚ)| = 1 / 20000 from abs_of_pos (by norm_num)]; norm_num)),
   formatNumber_policy.2.2 1234.5 (by norm_num)
      (by rw [show |(1234.5 : ℚ)| = 1234.5 from abs_of_pos (by norm_num)]; norm_num)⟩
